import Mathlib

/-!
Verification of `src/compression_analyzer.py` (head-network-distillation).

The file shallowly embeds the compression-profiling engine: the wrapped
model tree consumed by `extract_compression_rates`, the `test` evaluation
loop, `validate`, checkpoint save/resume, and the control flow of `run`.
Python exceptions are modelled with `Except`; Python floats arising from
division are modelled as rationals.
-/

/-- Python exception kinds that can surface from the embedded code. -/
inductive PyError where
  | noSamplesError
  | attributeError
  | zeroDivisionError
  | typeError

/-- Modelled from the spec (§4.1 Bandwidth Recorder; `module_wrap_util` is
not under `src/`): a per-node accumulator holding cumulative bytes observed
and the number of samples recorded. -/
structure Recorder where
  bytes : Nat
  count : Nat

/-- Modelled from the spec (§4.1): `average` returns cumulative bytes over
sample count and fails with `NoSamplesError` when no sample was ever
recorded. -/
def Recorder.average (r : Recorder) : Except PyError ℚ :=
  if r.count = 0 then Except.error PyError.noSamplesError
  else Except.ok ((r.bytes : ℚ) / (r.count : ℚ))

mutual

/-- The model tree seen by the extraction pass.  A `container` is an
`nn.Module` with a runtime class name and its named children in
declaration order (a computational leaf is a container with no children).
A `wrapper` is a `module_wrap_util.WrapperModule` (modelled from the
spec, §4.2): it owns the original module `org` and two recorders
(original bandwidth, compressed bandwidth). -/
inductive NNModule where
  | container (typeName : String) (children : NNForest)
  | wrapper (org : NNModule) (orgRec : Recorder) (compRec : Recorder)

/-- An ordered sequence of named child modules, in declaration order. -/
inductive NNForest where
  | nil
  | cons (name : String) (m : NNModule) (rest : NNForest)

end

/-- Whether a named-children sequence is empty — the truthiness of
`list(child_module.children())`. -/
def NNForest.isEmpty : NNForest → Bool
  | .nil => true
  | .cons _ _ _ => false

/-- Build a named-children sequence from a list of name/module pairs. -/
def NNForest.ofList : List (String × NNModule) → NNForest
  | [] => NNForest.nil
  | (nm, m) :: rest => NNForest.cons nm m (NNForest.ofList rest)

/-- `named_children()` of a module: a container exposes its declared
children; a `WrapperModule` registers exactly the wrapped module as the
submodule `org_module`, so its child list is nonempty. -/
def NNModule.namedChildren : NNModule → NNForest
  | .container _ cs => cs
  | .wrapper org _ _ => NNForest.cons "org_module" org NNForest.nil

/-- `type(m).__name__`: the runtime class name of a module.  Every wrapper
has class name `WrapperModule`. -/
def NNModule.typeName : NNModule → String
  | .container tn _ => tn
  | .wrapper _ _ _ => "WrapperModule"

/-- `isinstance(m, module_wrap_util.WrapperModule)`. -/
def NNModule.isWrapper : NNModule → Bool
  | .container _ _ => false
  | .wrapper _ _ _ => true

/-- `type(m.org_module).__name__` for a wrapper (junk `typeName` for a
container, which has no `org_module` attribute). -/
def NNModule.orgTypeName : NNModule → String
  | .container tn _ => tn
  | .wrapper org _ _ => org.typeName

/-- The value `get_average_org_bandwidth()` returns on a wrapper whose
original-bandwidth recorder has at least one sample. -/
def NNModule.orgAvg : NNModule → ℚ
  | .container _ _ => 0
  | .wrapper _ r1 _ => (r1.bytes : ℚ) / (r1.count : ℚ)

/-- The value `get_average_compressed_bandwidth()` returns on a wrapper
whose compressed-bandwidth recorder has at least one sample. -/
def NNModule.compAvg : NNModule → ℚ
  | .container _ _ => 0
  | .wrapper _ _ r2 => (r2.bytes : ℚ) / (r2.count : ℚ)

/-- A visited leaf that the extraction pass can measure without raising: a
wrapper both of whose recorders hold at least one sample. -/
def NNModule.measuredOk : NNModule → Bool
  | .container _ _ => false
  | .wrapper _ r1 r2 => r1.count ≠ 0 && r2.count ≠ 0

/-- The loop body of `extract_compression_rates` (lines 127-134), iterated
over a `named_children()` list.  For each child: if it has children and is
not a `WrapperModule`, recurse; otherwise read its two bandwidth averages
(original first, then compressed, as in lines 132-133) and its
`org_module`'s runtime type name.  A childless non-wrapper child has no
`get_average_org_bandwidth` attribute, hence `AttributeError`.  The three
result lists are (original bandwidths, compressed bandwidths, names),
mirroring the three Python accumulator lists. -/
def extractLoop : NNForest → Except PyError (List ℚ × List ℚ × List String)
  | .nil => Except.ok ([], [], [])
  | .cons _ (NNModule.container _ cs) rest =>
      if cs.isEmpty then Except.error PyError.attributeError
      else do
        let r1 ← extractLoop cs
        let r2 ← extractLoop rest
        Except.ok (r1.1 ++ r2.1, r1.2.1 ++ r2.2.1, r1.2.2 ++ r2.2.2)
  | .cons _ (NNModule.wrapper org rec1 rec2) rest => do
      let a ← rec1.average
      let b ← rec2.average
      let r ← extractLoop rest
      Except.ok (a :: r.1, b :: r.2.1, org.typeName :: r.2.2)

/-- `extract_compression_rates(parent_module, ...)`: runs the extraction
loop over the parent's named children and returns the final contents of the
three accumulator lists, or the first exception raised. -/
def extract_compression_rates (parent_module : NNModule) :
    Except PyError (List ℚ × List ℚ × List String) :=
  extractLoop parent_module.namedChildren

/-- Defined from the spec's words (§4.4): the depth-first pre-order list of
measured leaves, visiting each container's children in declared order and
recursing into a child exactly when it has children and is not an
Instrumentation Wrapper. -/
def visitedLoop : NNForest → List NNModule
  | .nil => []
  | .cons _ (NNModule.container tn cs) rest =>
      if cs.isEmpty then NNModule.container tn cs :: visitedLoop rest
      else visitedLoop cs ++ visitedLoop rest
  | .cons _ (NNModule.wrapper org rec1 rec2) rest =>
      NNModule.wrapper org rec1 rec2 :: visitedLoop rest

/-- Defined from the spec's words (§4.4): the measured leaves of a wrapped
model in traversal order. -/
def visitedLeaves (m : NNModule) : List NNModule :=
  visitedLoop m.namedChildren

/-- A leaf the pass can measure is necessarily a wrapper. -/
theorem measuredOk_isWrapper (w : NNModule) (h : w.measuredOk = true) :
    w.isWrapper = true := by
  cases w <;> simp_all [NNModule.measuredOk, NNModule.isWrapper]

/-- If every visited leaf is a wrapper with at least one sample in both
recorders, the extraction loop succeeds and returns the three lists of
per-leaf values in traversal order. -/
theorem extractLoop_ok_of_all :
    ∀ l : NNForest,
      (∀ w ∈ visitedLoop l, w.measuredOk = true) →
      extractLoop l = Except.ok ((visitedLoop l).map NNModule.orgAvg,
        (visitedLoop l).map NNModule.compAvg,
        (visitedLoop l).map NNModule.orgTypeName) := by
  intro l
  induction l using extractLoop.induct with
  | case1 =>
      intro _
      simp [extractLoop, visitedLoop]
  | case2 nm tn cs rest hempty =>
      intro h
      exact absurd (h (NNModule.container tn cs) (by simp [visitedLoop, hempty]))
        (by simp [NNModule.measuredOk])
  | case3 nm tn cs rest hempty ih1 ih2 =>
      intro h
      have h1 : ∀ w ∈ visitedLoop cs, w.measuredOk = true := fun w hw =>
        h w (by simp [visitedLoop, hempty, hw])
      have h2 : ∀ w ∈ visitedLoop rest, w.measuredOk = true := fun w hw =>
        h w (by simp [visitedLoop, hempty, hw])
      simp [extractLoop, hempty, ih1 h1, ih2 h2, visitedLoop, Bind.bind, Except.bind]
  | case4 nm org rec1 rec2 rest ih =>
      intro h
      have hw := h (NNModule.wrapper org rec1 rec2) (by simp [visitedLoop])
      simp only [NNModule.measuredOk, Bool.and_eq_true, decide_eq_true_eq] at hw
      have h2 : ∀ w ∈ visitedLoop rest, w.measuredOk = true := fun w hwm =>
        h w (by simp [visitedLoop, hwm])
      simp [extractLoop, Recorder.average, hw.1, hw.2, ih h2, visitedLoop,
        Bind.bind, Except.bind, NNModule.orgAvg, NNModule.compAvg, NNModule.orgTypeName]

/-- Whenever the extraction loop returns without raising, every visited
leaf was a wrapper with samples in both recorders, and the result is
exactly the three per-leaf value lists in traversal order. -/
theorem extractLoop_ok_char :
    ∀ (l : NNForest) (r : List ℚ × List ℚ × List String),
      extractLoop l = Except.ok r →
      (∀ w ∈ visitedLoop l, w.measuredOk = true) ∧
      r = ((visitedLoop l).map NNModule.orgAvg,
        (visitedLoop l).map NNModule.compAvg,
        (visitedLoop l).map NNModule.orgTypeName) := by
  intro l
  induction l using extractLoop.induct with
  | case1 =>
      intro r h
      simp [extractLoop] at h
      simp [visitedLoop, ← h]
  | case2 nm tn cs rest hempty =>
      intro r h
      simp [extractLoop, hempty] at h
  | case3 nm tn cs rest hempty ih1 ih2 =>
      intro r h
      simp only [extractLoop, hempty, Bool.false_eq_true, if_false, Bind.bind,
        Except.bind] at h
      cases he1 : extractLoop cs with
      | error e => rw [he1] at h; cases h
      | ok r1 =>
        rw [he1] at h
        cases he2 : extractLoop rest with
        | error e => rw [he2] at h; cases h
        | ok r2 =>
          rw [he2] at h
          cases h
          obtain ⟨ha1, hb1⟩ := ih1 r1 he1
          obtain ⟨ha2, hb2⟩ := ih2 r2 he2
          subst hb1; subst hb2
          constructor
          · intro w hw
            rcases List.mem_append.mp (by simpa [visitedLoop, hempty] using hw) with h | h
            · exact ha1 w h
            · exact ha2 w h
          · simp [visitedLoop, hempty]
  | case4 nm org rec1 rec2 rest ih =>
      intro r h
      by_cases h1 : rec1.count = 0
      · simp [extractLoop, Recorder.average, h1, Bind.bind, Except.bind] at h
      by_cases h2 : rec2.count = 0
      · simp [extractLoop, Recorder.average, h1, h2, Bind.bind, Except.bind] at h
      simp only [extractLoop, Recorder.average, h1, h2, if_false, Bind.bind,
        Except.bind, if_neg] at h
      cases he : extractLoop rest with
      | error e => rw [he] at h; cases h
      | ok r2 =>
        rw [he] at h
        cases h
        obtain ⟨ha, hb⟩ := ih r2 he
        subst hb
        constructor
        · intro w hw
          rcases (by simpa [visitedLoop] using hw :
              w = NNModule.wrapper org rec1 rec2 ∨ w ∈ visitedLoop rest) with rfl | hmem
          · simp [NNModule.measuredOk, h1, h2]
          · exact ha w hmem
        · simp [visitedLoop, NNModule.orgAvg, NNModule.compAvg, NNModule.orgTypeName]

/-- If every visited leaf is a wrapper but some visited leaf cannot be
measured (a recorder with zero samples), the extraction loop raises
`NoSamplesError`. -/
theorem extractLoop_err_noSamples :
    ∀ l : NNForest,
      (∀ w ∈ visitedLoop l, w.isWrapper = true) →
      (∃ w ∈ visitedLoop l, w.measuredOk = false) →
      extractLoop l = Except.error PyError.noSamplesError := by
  intro l
  induction l using extractLoop.induct with
  | case1 =>
      intro _ hz
      simp [visitedLoop] at hz
  | case2 nm tn cs rest hempty =>
      intro hw _
      exact absurd (hw (NNModule.container tn cs) (by simp [visitedLoop, hempty]))
        (by simp [NNModule.isWrapper])
  | case3 nm tn cs rest hempty ih1 ih2 =>
      intro hw hz
      have hwcs : ∀ w ∈ visitedLoop cs, w.isWrapper = true := fun w h =>
        hw w (by simp [visitedLoop, hempty, h])
      have hwrest : ∀ w ∈ visitedLoop rest, w.isWrapper = true := fun w h =>
        hw w (by simp [visitedLoop, hempty, h])
      by_cases hbad : ∃ w ∈ visitedLoop cs, w.measuredOk = false
      · simp [extractLoop, hempty, ih1 hwcs hbad, Bind.bind, Except.bind]
      · push_neg at hbad
        have hcs := extractLoop_ok_of_all cs (fun w h => by
          have := hbad w h
          simpa using this)
        have hrest : ∃ w ∈ visitedLoop rest, w.measuredOk = false := by
          obtain ⟨w, hwmem, hwf⟩ := hz
          rcases List.mem_append.mp (by simpa [visitedLoop, hempty] using hwmem) with h | h
          · exact absurd hwf (by simp [hbad w h])
          · exact ⟨w, h, hwf⟩
        simp [extractLoop, hempty, hcs, ih2 hwrest hrest, Bind.bind, Except.bind]
  | case4 nm org rec1 rec2 rest ih =>
      intro hw hz
      by_cases h1 : rec1.count = 0
      · simp [extractLoop, Recorder.average, h1, Bind.bind, Except.bind]
      by_cases h2 : rec2.count = 0
      · simp [extractLoop, Recorder.average, h1, h2, Bind.bind, Except.bind]
      have hwrest : ∀ w ∈ visitedLoop rest, w.isWrapper = true := fun w h =>
        hw w (by simp [visitedLoop, h])
      have hrest : ∃ w ∈ visitedLoop rest, w.measuredOk = false := by
        obtain ⟨w, hwmem, hwf⟩ := hz
        rcases (by simpa [visitedLoop] using hwmem :
            w = NNModule.wrapper org rec1 rec2 ∨ w ∈ visitedLoop rest) with rfl | hmem
        · simp [NNModule.measuredOk, h1, h2] at hwf
        · exact ⟨w, hmem, hwf⟩
      simp [extractLoop, Recorder.average, h1, h2, ih hwrest hrest, Bind.bind, Except.bind]

/-- A wrapped leaf of runtime type `X` with one recorded sample in each
recorder (original bytes 3, compressed bytes 1). -/
def exX : NNModule := NNModule.wrapper (NNModule.container "X" NNForest.nil) ⟨3, 1⟩ ⟨1, 1⟩

/-- A wrapped leaf of runtime type `W` with two recorded samples
(original bytes 4, compressed bytes 2). -/
def exW : NNModule := NNModule.wrapper (NNModule.container "W" NNForest.nil) ⟨4, 2⟩ ⟨2, 2⟩

/-- A wrapped leaf of runtime type `Z` with one recorded sample in each
recorder (original bytes 5, compressed bytes 1). -/
def exZ : NNModule := NNModule.wrapper (NNModule.container "Z" NNForest.nil) ⟨5, 1⟩ ⟨1, 1⟩

/-- The spec's concrete scenario: a container with children `[X, Y, Z]`
where `X` and `Z` are wrapped leaves and `Y` is a container holding one
wrapped leaf `W`. -/
def exModel : NNModule :=
  NNModule.container "Net" (NNForest.ofList
    [("x", exX), ("y", NNModule.container "Y" (NNForest.ofList [("w", exW)])),
     ("z", exZ)])

/-- A wrapped single-leaf model that never received a profiling forward
pass: both recorders of its only wrapper hold zero samples. -/
def exUnsampled : NNModule :=
  NNModule.container "Net" (NNForest.ofList
    [("x", NNModule.wrapper (NNModule.container "X" NNForest.nil) ⟨0, 0⟩ ⟨0, 0⟩)])

/-- **C1**: whenever `extract_compression_rates` returns, the extracted
name sequence is the depth-first pre-order sequence of measured leaves,
children taken in declared order, recursing into a child exactly when it
has children and is not an Instrumentation Wrapper (the witness checks the
spec's `[X, Y, Z]` scenario, whose name sequence is `[X, W, Z]`). -/
theorem extract_names_follow_preorder (m : NNModule)
    (r : List ℚ × List ℚ × List String)
    (h : extract_compression_rates m = Except.ok r) :
    r.2.2 = (visitedLeaves m).map NNModule.orgTypeName := by
  rw [(extractLoop_ok_char m.namedChildren r h).2]
  rfl

theorem extract_names_follow_preorder_witness :
    extract_compression_rates exModel =
      Except.ok ([3, 2, 5], [1, 1, 1], ["X", "W", "Z"]) ∧
    (([3, 2, 5], [1, 1, 1], ["X", "W", "Z"]) :
        List ℚ × List ℚ × List String).2.2 =
      (visitedLeaves exModel).map NNModule.orgTypeName ∧
    (visitedLeaves exModel).map NNModule.orgTypeName = ["X", "W", "Z"] := by
  have hok : extract_compression_rates exModel =
      Except.ok ([3, 2, 5], [1, 1, 1], ["X", "W", "Z"]) := by
    simp [extract_compression_rates, exModel, exX, exW, exZ, NNModule.namedChildren,
      NNForest.ofList, NNForest.isEmpty, extractLoop, Recorder.average,
      NNModule.typeName, Bind.bind, Except.bind]
    norm_num
  refine ⟨hok, extract_names_follow_preorder exModel _ hok, ?_⟩
  simp [visitedLeaves, exModel, exX, exW, exZ, NNModule.namedChildren,
    NNForest.ofList, NNForest.isEmpty, visitedLoop, NNModule.orgTypeName,
    NNModule.typeName]

/-- **C2**: on a fully wrapped tree, if some visited leaf never received a
profiling forward pass (both of its recorders hold zero samples),
`extract_compression_rates` fails with `NoSamplesError` propagated from
that leaf's bandwidth averages to the caller — the result is the error
itself, with no recovery or retry in the extraction code. -/
theorem extract_raises_noSamplesError (m : NNModule)
    (hw : ∀ w ∈ visitedLeaves m, w.isWrapper = true)
    (org : NNModule) (r1 r2 : Recorder)
    (hmem : NNModule.wrapper org r1 r2 ∈ visitedLeaves m)
    (h1 : r1.count = 0) (_h2 : r2.count = 0) :
    extract_compression_rates m = Except.error PyError.noSamplesError :=
  extractLoop_err_noSamples m.namedChildren hw
    ⟨NNModule.wrapper org r1 r2, hmem, by simp [NNModule.measuredOk, h1]⟩

theorem extract_raises_noSamplesError_witness :
    extract_compression_rates exUnsampled = Except.error PyError.noSamplesError :=
  extract_raises_noSamplesError exUnsampled
    (by simp [visitedLeaves, exUnsampled, NNModule.namedChildren, NNForest.ofList,
      NNForest.isEmpty, visitedLoop, NNModule.isWrapper])
    (NNModule.container "X" NNForest.nil) ⟨0, 0⟩ ⟨0, 0⟩
    (by simp [visitedLeaves, exUnsampled, NNModule.namedChildren, NNForest.ofList,
      NNForest.isEmpty, visitedLoop])
    rfl rfl

/-- **C4**: extracting from a model with no leaves (an empty container)
returns three empty sequences and raises no error. -/
theorem extract_empty_model (tn : String) :
    extract_compression_rates (NNModule.container tn NNForest.nil) =
      Except.ok ([], [], []) := by
  simp [extract_compression_rates, NNModule.namedChildren, extractLoop]

theorem extract_empty_model_witness :
    extract_compression_rates (NNModule.container "Net" NNForest.nil) =
      Except.ok ([], [], []) :=
  extract_empty_model "Net"

/-- **C5**: whenever `extract_compression_rates` completes without
raising, its three output sequences (names, original-bandwidth averages,
compressed-bandwidth averages) have equal length, with exactly one entry
per instrumented leaf visited, in traversal order. -/
theorem extract_profile_parallel (m : NNModule)
    (os cs : List ℚ) (ns : List String)
    (h : extract_compression_rates m = Except.ok (os, cs, ns)) :
    os.length = ns.length ∧ cs.length = ns.length ∧
      ns.length = (visitedLeaves m).length ∧
      os = (visitedLeaves m).map NNModule.orgAvg ∧
      cs = (visitedLeaves m).map NNModule.compAvg ∧
      ns = (visitedLeaves m).map NNModule.orgTypeName := by
  obtain ⟨-, hr⟩ := extractLoop_ok_char m.namedChildren _ h
  simp only [Prod.mk.injEq] at hr
  obtain ⟨ho, hc, hn⟩ := hr
  subst ho; subst hc; subst hn
  simp [visitedLeaves]

theorem extract_profile_parallel_witness :
    extract_compression_rates exModel =
      Except.ok ([3, 2, 5], [1, 1, 1], ["X", "W", "Z"]) ∧
    ([(3 : ℚ), 2, 5].length = ["X", "W", "Z"].length ∧
      [(1 : ℚ), 1, 1].length = ["X", "W", "Z"].length ∧
      ["X", "W", "Z"].length = (visitedLeaves exModel).length ∧
      [(3 : ℚ), 2, 5] = (visitedLeaves exModel).map NNModule.orgAvg ∧
      [(1 : ℚ), 1, 1] = (visitedLeaves exModel).map NNModule.compAvg ∧
      ["X", "W", "Z"] = (visitedLeaves exModel).map NNModule.orgTypeName) := by
  have hok : extract_compression_rates exModel =
      Except.ok ([3, 2, 5], [1, 1, 1], ["X", "W", "Z"]) := by
    simp [extract_compression_rates, exModel, exX, exW, exZ, NNModule.namedChildren,
      NNForest.ofList, NNForest.isEmpty, extractLoop, Recorder.average,
      NNModule.typeName, Bind.bind, Except.bind]
    norm_num
  exact ⟨hok, extract_profile_parallel exModel _ _ _ hok⟩

/-- **C6**: whenever `extract_compression_rates` completes, the name it
appended for each measured leaf is the runtime type name of the
originally-wrapped node (the wrapper's `org_module`), while every visited
leaf is itself a wrapper whose own runtime type name is the constant
`WrapperModule`. -/
theorem extract_names_from_org_module (m : NNModule)
    (os cs : List ℚ) (ns : List String)
    (h : extract_compression_rates m = Except.ok (os, cs, ns)) :
    ns = (visitedLeaves m).map NNModule.orgTypeName ∧
      ∀ w ∈ visitedLeaves m, w.isWrapper = true ∧
        w.typeName = "WrapperModule" := by
  obtain ⟨hall, hr⟩ := extractLoop_ok_char m.namedChildren _ h
  simp only [Prod.mk.injEq] at hr
  refine ⟨hr.2.2, fun w hw => ?_⟩
  have hwrap := measuredOk_isWrapper w (hall w hw)
  refine ⟨hwrap, ?_⟩
  cases w with
  | container tn cs2 => simp [NNModule.isWrapper] at hwrap
  | wrapper org r1 r2 => simp [NNModule.typeName]

theorem extract_names_from_org_module_witness :
    extract_compression_rates exModel =
      Except.ok ([3, 2, 5], [1, 1, 1], ["X", "W", "Z"]) ∧
    (["X", "W", "Z"] = (visitedLeaves exModel).map NNModule.orgTypeName ∧
      ∀ w ∈ visitedLeaves exModel, w.isWrapper = true ∧
        w.typeName = "WrapperModule") := by
  have hok : extract_compression_rates exModel =
      Except.ok ([3, 2, 5], [1, 1, 1], ["X", "W", "Z"]) := by
    simp [extract_compression_rates, exModel, exX, exW, exZ, NNModule.namedChildren,
      NNForest.ofList, NNForest.isEmpty, extractLoop, Recorder.average,
      NNModule.typeName, Bind.bind, Except.bind]
    norm_num
  exact ⟨hok, extract_names_from_org_module exModel _ _ _ hok⟩

/-- One `(inputs, targets)` pair yielded by a data loader.  `inputs` is an
opaque input batch; `targets` is the list of per-sample labels, so
`targets.size(0)` is its length. -/
structure Batch (α : Type) where
  inputs : α
  targets : List Nat

/-- The three accumulators of the loop in `test` (lines 102-112):
`correct`, `total`, and `bandwidth`. -/
structure TestAcc where
  correct : Nat
  total : Nat
  bandwidth : Nat

/-- `predicted.eq(targets).sum().item()`: how many predicted labels agree
with the targets, position by position. -/
def countCorrect (predicted targets : List Nat) : Nat :=
  ((predicted.zip targets).filter fun p => p.1 = p.2).length

/-- The batch loop of `test` (lines 106-112): each batch adds the serialized
byte size of its input tensor to `bandwidth`, its number of samples to
`total`, and its correctly-predicted count to `correct`.  `model` maps an
input batch to the predicted labels; `nbytes` is
`inputs.clone().cpu().detach().numpy().nbytes`. -/
def testLoop {α : Type} (model : α → List Nat) (nbytes : α → Nat) :
    List (Batch α) → TestAcc → TestAcc
  | [], s => s
  | b :: rest, s =>
      testLoop model nbytes rest
        ⟨s.correct + countCorrect (model b.inputs) b.targets,
         s.total + b.targets.length,
         s.bandwidth + nbytes b.inputs⟩

/-- `test(model, test_loader, device, data_type)` (lines 100-116): runs the
batch loop, then returns `(100.0 * correct / total, bandwidth / total)`.
Both divisions divide by `total` with no guard, so a loader with zero
samples in total raises `ZeroDivisionError` at line 114. -/
def test {α : Type} (model : α → List Nat) (nbytes : α → Nat)
    (test_loader : List (Batch α)) : Except PyError (ℚ × ℚ) :=
  let s := testLoop model nbytes test_loader ⟨0, 0, 0⟩
  if s.total = 0 then Except.error PyError.zeroDivisionError
  else Except.ok (100 * (s.correct : ℚ) / (s.total : ℚ),
    (s.bandwidth : ℚ) / (s.total : ℚ))

/-- Defined from the spec's words (§6): the mean serialized size of raw
dataset samples — the sum over all batches of each input batch's byte
footprint, divided by the total number of samples across all batches. -/
def meanInputBandwidth {α : Type} (nbytes : α → Nat)
    (loader : List (Batch α)) : ℚ :=
  let totalBytes : Nat := (loader.map fun b => nbytes b.inputs).sum
  let totalSamples : Nat := (loader.map fun b => b.targets.length).sum
  (totalBytes : ℚ) / (totalSamples : ℚ)

/-- Closed form of the `test` batch loop: the three accumulators end at
their starting values plus the respective per-batch sums. -/
theorem testLoop_state {α : Type} (model : α → List Nat) (nbytes : α → Nat)
    (l : List (Batch α)) (s : TestAcc) :
    testLoop model nbytes l s =
      ⟨s.correct + (l.map fun b => countCorrect (model b.inputs) b.targets).sum,
       s.total + (l.map fun b => b.targets.length).sum,
       s.bandwidth + (l.map fun b => nbytes b.inputs).sum⟩ := by
  induction l generalizing s with
  | nil => simp [testLoop]
  | cons b rest ih =>
      simp only [testLoop, ih, List.map_cons, List.sum_cons, TestAcc.mk.injEq]
      refine ⟨by omega, by omega, by omega⟩

/-- **C3**: whenever `test` returns, its second component (the average
input bandwidth) equals the mean serialized size of raw dataset samples:
the summed byte footprint of all input batches divided by the total number
of samples seen. -/
theorem test_returns_mean_input_bandwidth {α : Type} (model : α → List Nat)
    (nbytes : α → Nat) (loader : List (Batch α)) (acc bw : ℚ)
    (h : test model nbytes loader = Except.ok (acc, bw)) :
    bw = meanInputBandwidth nbytes loader := by
  unfold test at h
  rw [testLoop_state] at h
  by_cases ht : (loader.map fun b => b.targets.length).sum = 0
  · simp [ht] at h
  · simp only [Nat.zero_add, ht, if_neg, if_false, Except.ok.injEq,
      Prod.mk.injEq] at h
    unfold meanInputBandwidth
    exact h.2.symm

theorem test_returns_mean_input_bandwidth_witness :
    test (fun _ : Nat => [0]) (fun x => x) [⟨14, [0, 1]⟩] =
      Except.ok (50, 7) ∧
    meanInputBandwidth (fun x : Nat => x) [⟨14, [0, 1]⟩] = 7 := by
  have hok : test (fun _ : Nat => [0]) (fun x => x) [⟨14, [0, 1]⟩] =
      Except.ok (50, 7) := by
    simp [test, testLoop, countCorrect, List.zip]
    norm_num
  exact ⟨hok, (test_returns_mean_input_bandwidth _ _ _ 50 7 hok).symm⟩

/-- **C10**: `test` divides by the accumulated sample count without a
guard: a loader yielding zero samples in total makes it raise
`ZeroDivisionError`, while for any loader with at least one sample both
divisions are well-defined and `test` returns a pair of rationals. -/
theorem test_division_guard {α : Type} (model : α → List Nat)
    (nbytes : α → Nat) (loader : List (Batch α)) :
    ((loader.map fun b => b.targets.length).sum = 0 →
      test model nbytes loader = Except.error PyError.zeroDivisionError) ∧
    (0 < (loader.map fun b => b.targets.length).sum →
      ∃ acc bw : ℚ, test model nbytes loader = Except.ok (acc, bw)) := by
  constructor
  · intro h0
    unfold test
    rw [testLoop_state]
    simp [h0]
  · intro hpos
    unfold test
    rw [testLoop_state]
    simp only [Nat.zero_add]
    rw [if_neg (by omega)]
    exact ⟨_, _, rfl⟩

theorem test_division_guard_witness :
    test (fun _ : Nat => [0]) (fun x => x) ([] : List (Batch Nat)) =
      Except.error PyError.zeroDivisionError ∧
    (∃ acc bw : ℚ, test (fun _ : Nat => [0]) (fun x => x) [⟨14, [0, 1]⟩] =
      Except.ok (acc, bw)) := by
  refine ⟨(test_division_guard (fun _ : Nat => [0]) (fun x => x) []).1 rfl, ?_⟩
  exact (test_division_guard (fun _ : Nat => [0]) (fun x => x) [⟨14, [0, 1]⟩]).2
    (by simp)

/-- The smallest number of positional arguments `test`'s signature
`test(model, test_loader, device, data_type='Test')` (line 100) accepts. -/
def testMinPositionalArgs : Nat := 3

/-- The largest number of positional arguments `test`'s signature
(line 100) accepts: `model`, `test_loader`, `device`, `data_type`. -/
def testMaxPositionalArgs : Nat := 4

/-- The number of positional arguments `validate` passes to `test` at
line 120: `model`, `valid_loader`, `criterion`, `device`, `'Validation'`. -/
def validateTestCallArgs : Nat := 5

/-- Python's positional-argument binding check: calling a function with
fewer than its required or more than its declared positional parameters
raises `TypeError` before the callee's body runs. -/
def checkArity (provided low high : Nat) : Except PyError Unit :=
  if low ≤ provided ∧ provided ≤ high then Except.ok ()
  else Except.error PyError.typeError

/-- `validate` (lines 119-124): it calls `test` with five positional
arguments, so Python's binding check runs first; only if that succeeded
would the test outcome be read and, when the new accuracy beats
`best_acc`, `save_ckpt` be invoked (flagged by the returned Bool) and
`best_acc` updated. -/
def validate (testOutcome : Except PyError (ℚ × ℚ)) (best_acc : ℚ) :
    Except PyError (ℚ × Bool) := do
  let _ ← checkArity validateTestCallArgs testMinPositionalArgs testMaxPositionalArgs
  let r ← testOutcome
  if best_acc < r.1 then pure (r.1, true) else pure (best_acc, false)

/-- **C9**: every invocation of `validate` raises `TypeError` before
computing accuracy or saving any checkpoint, because the call at line 120
passes five positional arguments while `test` accepts at most four; hence
`validate` never returns a result, `best_acc` is never updated and
`save_ckpt` is never reached through `validate`. -/
theorem validate_always_typeError (testOutcome : Except PyError (ℚ × ℚ))
    (best_acc : ℚ) :
    validate testOutcome best_acc = Except.error PyError.typeError ∧
    testMaxPositionalArgs < validateTestCallArgs := by
  refine ⟨?_, by simp [testMaxPositionalArgs, validateTestCallArgs]⟩
  simp [validate, checkArity, validateTestCallArgs, testMinPositionalArgs,
    testMaxPositionalArgs, Bind.bind, Except.bind]

/-- The Checkpoint Record persisted by `save_ckpt`: exactly the model
parameters (`state_dict`), the model-type tag, the accuracy score, and the
epoch number. -/
structure Checkpoint (P : Type) where
  modelType : String
  model : P
  acc : ℚ
  epoch : Nat

/-- `save_ckpt(model, acc, epoch, ckpt_file_path, model_type)` (lines
88-97): builds the state dictionary with keys `type`, `model`, `acc`,
`epoch` and writes it to the checkpoint file. -/
def save_ckpt {P : Type} (model : P) (acc : ℚ) (epoch : Nat)
    (model_type : String) : Checkpoint P :=
  ⟨model_type, model, acc, epoch⟩

/-- `resume_from_ckpt(model, config, args)` (lines 34-45): with the init
flag, or when no checkpoint file exists, it returns the config's model
type, accuracy 0 and epoch 1 leaving the model untouched; otherwise it
loads the stored parameters into the model and returns the stored type
tag, accuracy and epoch.  The result is (parameters now in the model,
model type, best accuracy, start epoch). -/
def resume_from_ckpt {P : Type} (model : P) (config_model_type : String)
    (init : Bool) (stored : Option (Checkpoint P)) : P × String × ℚ × Nat :=
  match init, stored with
  | true, _ => (model, config_model_type, 0, 1)
  | false, none => (model, config_model_type, 0, 1)
  | false, some ckpt => (ckpt.model, ckpt.modelType, ckpt.acc, ckpt.epoch)

/-- **C8**: `save_ckpt` persists exactly the tuple of model parameters,
model-type tag, accuracy score and epoch number, and `resume_from_ckpt`
without the init flag on an existing checkpoint loads those parameters
into the model and returns the very type tag, accuracy and epoch that were
saved. -/
theorem ckpt_round_trip {P : Type} (params current : P) (acc : ℚ)
    (epoch : Nat) (model_type config_type : String) :
    (save_ckpt params acc epoch model_type).modelType = model_type ∧
    (save_ckpt params acc epoch model_type).model = params ∧
    (save_ckpt params acc epoch model_type).acc = acc ∧
    (save_ckpt params acc epoch model_type).epoch = epoch ∧
    resume_from_ckpt current config_type false
        (some (save_ckpt params acc epoch model_type)) =
      (params, model_type, acc, epoch) := by
  simp [save_ckpt, resume_from_ckpt]

/-- The externally visible steps of `run` (lines 153-174), in execution
order. -/
inductive RunEvent where
  | resumeCkpt
  | trainEpoch (epoch : Nat)
  | validateEpoch (epoch : Nat)
  | wrapModel
  | profilingTest
  | extractProfile
  deriving DecidableEq

/-- The epoch loop of `run` (lines 169-171): each iteration trains, then
calls `validate`; an exception from `validate` aborts the loop (and `run`)
immediately. -/
def trainLoopEvents (validOutcome : Except PyError (ℚ × ℚ)) (best_acc : ℚ) :
    List Nat → List RunEvent × Option PyError
  | [] => ([], none)
  | e :: rest =>
      match validate validOutcome best_acc with
      | Except.error err =>
          ([RunEvent.trainEpoch e, RunEvent.validateEpoch e], some err)
      | Except.ok r =>
          let t := trainLoopEvents validOutcome r.1 rest
          (RunEvent.trainEpoch e :: RunEvent.validateEpoch e :: t.1, t.2)

/-- `run(args)` (lines 153-174) as the sequence of steps it performs and
the exception it propagates, if any: resume from the checkpoint, then
(unless `-evaluate` is set) the epoch loop over
`range(start_epoch, start_epoch + args.epoch)`, then wrap the model once,
then the profiling forward pass (`test`), then
`plot_compression_rates`, whose first act is `extract_compression_rates`
on the wrapped model. -/
def run {α : Type} {P : Type} (evaluate init : Bool) (numEpochs : Nat)
    (currentParams : P) (config_model_type : String)
    (stored : Option (Checkpoint P))
    (validOutcome : Except PyError (ℚ × ℚ))
    (model : α → List Nat) (nbytes : α → Nat) (test_loader : List (Batch α))
    (wrappedModel : NNModule) : List RunEvent × Option PyError :=
  let resumed := resume_from_ckpt currentParams config_model_type init stored
  let best_acc := resumed.2.2.1
  let start_epoch := resumed.2.2.2
  let loop :=
    if evaluate then ([], none)
    else trainLoopEvents validOutcome best_acc (List.range' start_epoch numEpochs)
  match loop.2 with
  | some err => (RunEvent.resumeCkpt :: loop.1, some err)
  | none =>
      let pre := RunEvent.resumeCkpt :: loop.1 ++
        [RunEvent.wrapModel, RunEvent.profilingTest]
      match test model nbytes test_loader with
      | Except.error e => (pre, some e)
      | Except.ok _ =>
          match extract_compression_rates wrappedModel with
          | Except.error e => (pre ++ [RunEvent.extractProfile], some e)
          | Except.ok _ => (pre ++ [RunEvent.extractProfile], none)

/-- **C7** (code bug): with `-evaluate` not set and at least one epoch
(the default is 100), the first `validate` call raises `TypeError`, `run`
propagates it, and the Tree Wrapping Pass is never invoked — contradicting
the claim that it is invoked exactly once in every execution.  Only when
the epoch loop body never runs (here: `-evaluate` set) does `run` reach
wrapping, and then the order is: resume, wrap once, profiling `test`,
extraction. -/
theorem run_training_loop_crashes_before_wrap :
    (run (α := Nat) (P := Nat) false true 1 0 "densenet" none
        (Except.ok (0, 0)) (fun _ => [0]) (fun x => x) [⟨14, [0, 1]⟩]
        exModel) =
      ([RunEvent.resumeCkpt, RunEvent.trainEpoch 1, RunEvent.validateEpoch 1],
        some PyError.typeError) ∧
    ((run (α := Nat) (P := Nat) false true 1 0 "densenet" none
        (Except.ok (0, 0)) (fun _ => [0]) (fun x => x) [⟨14, [0, 1]⟩]
        exModel).1.count RunEvent.wrapModel) = 0 ∧
    (run (α := Nat) (P := Nat) true true 1 0 "densenet" none
        (Except.ok (0, 0)) (fun _ => [0]) (fun x => x) [⟨14, [0, 1]⟩]
        exModel) =
      ([RunEvent.resumeCkpt, RunEvent.wrapModel, RunEvent.profilingTest,
        RunEvent.extractProfile], none) := by
  have hval : ∀ (t : Except PyError (ℚ × ℚ)) (b : ℚ),
      validate t b = Except.error PyError.typeError := by
    intro t b
    simp [validate, checkArity, validateTestCallArgs, testMinPositionalArgs,
      testMaxPositionalArgs, Bind.bind, Except.bind]
  have htest : test (fun _ : Nat => [0]) (fun x => x) [⟨14, [0, 1]⟩] =
      Except.ok (50, 7) := by
    simp [test, testLoop, countCorrect, List.zip]
    norm_num
  have hex : extract_compression_rates exModel =
      Except.ok ([3, 2, 5], [1, 1, 1], ["X", "W", "Z"]) := by
    simp [extract_compression_rates, exModel, exX, exW, exZ, NNModule.namedChildren,
      NNForest.ofList, NNForest.isEmpty, extractLoop, Recorder.average,
      NNModule.typeName, Bind.bind, Except.bind]
    norm_num
  have h1 : (run (α := Nat) (P := Nat) false true 1 0 "densenet" none
      (Except.ok (0, 0)) (fun _ => [0]) (fun x => x) [⟨14, [0, 1]⟩]
      exModel) =
      ([RunEvent.resumeCkpt, RunEvent.trainEpoch 1, RunEvent.validateEpoch 1],
        some PyError.typeError) := by
    simp [run, resume_from_ckpt, List.range'_one, trainLoopEvents, hval]
  refine ⟨h1, ?_, ?_⟩
  · rw [h1]
    decide
  · simp [run, resume_from_ckpt, htest, hex]
